import Mathlib

/-!
Verification of the geometry engine of the dioxus-floating repository
(src/floating.rs), shallowly embedded in Lean 4.

Pixel quantities are f64 in the source; they are modelled here as rationals,
which realise exactly the additions, subtractions and halvings the engine
performs.  The one partial operation in the source is f64::clamp, which
panics when its lower bound exceeds its upper bound; it is modelled by an
Option-returning function, so a panic escaping the engine shows up as none.
-/

namespace DioxusFloating

/-- Rect models dioxus PixelsRect: an axis-aligned box given by its top-left
corner and its size, with derived max coordinates. -/
structure Rect where
  minX : ℚ
  minY : ℚ
  width : ℚ
  height : ℚ
deriving DecidableEq, Repr

/-- Rect.maxX mirrors PixelsRect::max_x = origin.x + size.width. -/
def Rect.maxX (r : Rect) : ℚ := r.minX + r.width

/-- Rect.maxY mirrors PixelsRect::max_y = origin.y + size.height. -/
def Rect.maxY (r : Rect) : ℚ := r.minY + r.height

/-- PixelsSize models dioxus PixelsSize. -/
structure PixelsSize where
  width : ℚ
  height : ℚ
deriving DecidableEq, Repr

/-- PixelsVector2D models dioxus PixelsVector2D. -/
structure PixelsVector2D where
  x : ℚ
  y : ℚ
deriving DecidableEq, Repr

/-- ClientPoint models dioxus ClientPoint. -/
structure ClientPoint where
  x : ℚ
  y : ℚ
deriving DecidableEq, Repr

/-- ScrollState mirrors the struct in floating.rs: total scrollable content
size, visible bounds of the container, and current scroll position. -/
structure ScrollState where
  size : PixelsSize
  bounds : PixelsSize
  state : PixelsVector2D
deriving DecidableEq, Repr

/-- Placement mirrors the 12-variant enum in floating.rs. -/
inductive Placement where
  | TopStart
  | TopCenter
  | TopEnd
  | BottomStart
  | BottomCenter
  | BottomEnd
  | LeftStart
  | LeftCenter
  | LeftEnd
  | RightStart
  | RightCenter
  | RightEnd
deriving DecidableEq, Repr

/-- PlacementModifier mirrors the enum in floating.rs. -/
inductive PlacementModifier where
  | Center
  | Start
  | End
deriving DecidableEq, Repr

/-- Placement.is_vertical mirrors the matches! over the six Top/Bottom
variants in floating.rs. -/
def Placement.is_vertical : Placement → Bool
  | .TopStart | .TopCenter | .TopEnd
  | .BottomStart | .BottomCenter | .BottomEnd => true
  | _ => false

/-- Placement.is_top mirrors the matches! over the three Top variants. -/
def Placement.is_top : Placement → Bool
  | .TopEnd | .TopCenter | .TopStart => true
  | _ => false

/-- Placement.is_left mirrors the matches! over the three Left variants. -/
def Placement.is_left : Placement → Bool
  | .LeftCenter | .LeftEnd | .LeftStart => true
  | _ => false

/-- Placement.get_modifier mirrors the 12-case match in floating.rs. -/
def Placement.get_modifier : Placement → PlacementModifier
  | .BottomCenter => .Center
  | .LeftCenter => .Center
  | .RightCenter => .Center
  | .TopCenter => .Center
  | .BottomEnd => .End
  | .LeftEnd => .End
  | .RightEnd => .End
  | .TopEnd => .End
  | .BottomStart => .Start
  | .LeftStart => .Start
  | .RightStart => .Start
  | .TopStart => .Start

/-- Middleware mirrors the enum in floating.rs. -/
inductive Middleware where
  | Flip
  | Shift
deriving DecidableEq, Repr

/-- FloatingOptions mirrors the struct in floating.rs. -/
structure FloatingOptions where
  middleware : List Middleware
  offset : ℚ
  padding : ℚ
  placement : Placement

/-- FloatingOptions.can_flip mirrors self.middleware.contains(Flip); Vec
membership under derived PartialEq is list membership. -/
def FloatingOptions.can_flip (o : FloatingOptions) : Bool :=
  decide (Middleware.Flip ∈ o.middleware)

/-- FloatingOptions.can_shift mirrors self.middleware.contains(Shift). -/
def FloatingOptions.can_shift (o : FloatingOptions) : Bool :=
  decide (Middleware.Shift ∈ o.middleware)

/-- FloatingOptions.default mirrors the Default impl in floating.rs. -/
def FloatingOptions.default : FloatingOptions :=
  { middleware := [Middleware.Flip, Middleware.Shift]
    offset := 1
    padding := 0
    placement := Placement.BottomStart }

namespace Floating

/-- fclamp models Rust f64::clamp: assert min <= max (panic otherwise,
modelled as none), then move the value to the nearer violated bound. -/
def fclamp (x lo hi : ℚ) : Option ℚ :=
  if lo ≤ hi then
    some (if x < lo then lo else if x > hi then hi else x)
  else
    none

/-- compute_base_coords mirrors Floating::compute_base_coords in floating.rs:
the ideal coordinates from placement, alignment and offset, ignoring the
scrollable bounds. -/
def compute_base_coords (element trigger : Rect) (options : FloatingOptions) :
    ℚ × ℚ :=
  if options.placement.is_vertical then
    let x :=
      match options.placement.get_modifier with
      | PlacementModifier.Center =>
          trigger.minX + trigger.width / 2 - element.width / 2
      | PlacementModifier.Start => trigger.minX
      | PlacementModifier.End => trigger.maxX - element.width
    let y :=
      if options.placement.is_top then
        trigger.minY - element.height - options.offset
      else
        trigger.maxY + options.offset
    (x, y)
  else
    let x :=
      if options.placement.is_left then
        trigger.minX - element.width - options.offset
      else
        trigger.maxX + options.offset
    let y :=
      match options.placement.get_modifier with
      | PlacementModifier.Center =>
          trigger.minY + trigger.height / 2 - element.height / 2
      | PlacementModifier.Start => trigger.minY
      | PlacementModifier.End => trigger.maxY - element.height
    (x, y)

/-- flipStep mirrors the flip-middleware block of Floating::apply_middleware
(the first block, guarded by options.can_flip). -/
def flipStep (pos : ℚ × ℚ) (scrollable element trigger : Rect)
    (options : FloatingOptions) : ℚ × ℚ :=
  if options.can_flip then
    if options.placement.is_vertical then
      if options.placement.is_top ∧ pos.2 < scrollable.minY then
        (pos.1, trigger.maxY + options.offset)
      else if ¬options.placement.is_top ∧
          pos.2 + element.height > scrollable.maxY then
        (pos.1, trigger.minY - element.height - options.offset)
      else pos
    else
      if options.placement.is_left ∧ pos.1 < scrollable.minX then
        (trigger.maxX + options.offset, pos.2)
      else if ¬options.placement.is_left ∧
          pos.1 + element.width > scrollable.maxX then
        (trigger.minX - element.width - options.offset, pos.2)
      else pos
  else pos

/-- viewportClamp mirrors the two successive if-statements of the shift block
that pull a coordinate back inside the scrollable span before the trigger
clamp is applied. -/
def viewportClamp (coord lo hi size : ℚ) : ℚ :=
  let c := if coord < lo then lo else coord
  if c + size > hi then hi - size else c

/-- shiftStep mirrors the shift-middleware block of Floating::apply_middleware
(the second block, guarded by options.can_shift): viewport containment on the
transverse axis followed by the authoritative trigger-span clamp. -/
def shiftStep (pos : ℚ × ℚ) (scrollable element trigger : Rect)
    (options : FloatingOptions) : Option (ℚ × ℚ) :=
  if options.can_shift then
    if options.placement.is_vertical then
      let minAllowedX := trigger.minX - element.width + options.padding
      let maxAllowedX := trigger.maxX - options.padding
      let x1 := viewportClamp pos.1 scrollable.minX scrollable.maxX element.width
      (fclamp x1 minAllowedX maxAllowedX).map (fun xc => (xc, pos.2))
    else
      let minAllowedY := trigger.minY - element.height + options.padding
      let maxAllowedY := trigger.maxY - options.padding
      let y1 := viewportClamp pos.2 scrollable.minY scrollable.maxY element.height
      (fclamp y1 minAllowedY maxAllowedY).map (fun yc => (pos.1, yc))
  else some pos

/-- apply_middleware mirrors Floating::apply_middleware in floating.rs: the
flip block followed by the shift block on the initial position. -/
def apply_middleware (initial_pos : ℚ × ℚ) (scrollable element trigger : Rect)
    (options : FloatingOptions) : Option (ℚ × ℚ) :=
  shiftStep (flipStep initial_pos scrollable element trigger options)
    scrollable element trigger options

/-- calculate_placement mirrors Floating::calculate_placement in floating.rs:
base coordinates then middleware adjustments. -/
def calculate_placement (scrollable element trigger : Rect)
    (options : FloatingOptions) : Option (ℚ × ℚ) :=
  apply_middleware (compute_base_coords element trigger options)
    scrollable element trigger options

/-- placement_on_point mirrors Floating::placement_on_point in floating.rs,
with the two fallible get_client_rect measurements passed in as Option
arguments: the scrollable measurement falls back to a rectangle at the origin
with the scroll-state bounds, the trigger is a synthesized 1x1 rectangle at
the point, and a failed element measurement returns the point itself. -/
def placement_on_point (scroll_state : ScrollState)
    (scrollable_meas : Option Rect) (element_meas : Option Rect)
    (trigger : ClientPoint) (options : FloatingOptions) : Option (ℚ × ℚ) :=
  let scrollable_rect := scrollable_meas.getD
    ⟨0, 0, scroll_state.bounds.width, scroll_state.bounds.height⟩
  let trigger_rect : Rect := ⟨trigger.x, trigger.y, 1, 1⟩
  match element_meas with
  | some element_rect =>
      calculate_placement scrollable_rect element_rect trigger_rect options
  | none => some (trigger_rect.minX, trigger_rect.minY)

/-- placement_on_trigger mirrors Floating::placement_on_trigger in
floating.rs, with the three fallible get_client_rect measurements passed in
as Option arguments: the scrollable measurement falls back to a rectangle at
the origin with the scroll-state bounds, the trigger measurement falls back
to a 1x1 rectangle at the origin, and a failed element measurement returns
the trigger rectangle's top-left corner. -/
def placement_on_trigger (scroll_state : ScrollState)
    (scrollable_meas : Option Rect) (trigger_meas : Option Rect)
    (element_meas : Option Rect) (options : FloatingOptions) : Option (ℚ × ℚ) :=
  let scrollable_rect := scrollable_meas.getD
    ⟨0, 0, scroll_state.bounds.width, scroll_state.bounds.height⟩
  let trigger_rect := trigger_meas.getD ⟨0, 0, 1, 1⟩
  match element_meas with
  | some element_rect =>
      calculate_placement scrollable_rect element_rect trigger_rect options
  | none => some (trigger_rect.minX, trigger_rect.minY)

end Floating

end DioxusFloating

namespace DioxusFloating
namespace Floating

lemma fclamp_eq_some_bounds {x lo hi r : ℚ} (h : fclamp x lo hi = some r) :
    lo ≤ r ∧ r ≤ hi := by
  unfold fclamp at h
  split_ifs at h with h1 h2 h3 <;>
    simp only [Option.some.injEq, reduceCtorEq] at h
  · exact h ▸ ⟨le_refl lo, h1⟩
  · exact h ▸ ⟨le_trans h1 (le_refl hi), le_refl hi⟩
  · exact h ▸ ⟨le_of_not_lt h2, le_of_not_lt h3⟩

lemma fclamp_isSome {x lo hi : ℚ} (h : lo ≤ hi) :
    ∃ r, fclamp x lo hi = some r := by
  unfold fclamp
  rw [if_pos h]
  exact ⟨_, rfl⟩

lemma flipStep_fst_of_vertical {pos : ℚ × ℚ} {s e t : Rect} {o : FloatingOptions}
    (hv : o.placement.is_vertical = true) :
    (flipStep pos s e t o).1 = pos.1 := by
  unfold flipStep
  split_ifs <;> simp_all

lemma flipStep_snd_of_horizontal {pos : ℚ × ℚ} {s e t : Rect} {o : FloatingOptions}
    (hv : o.placement.is_vertical = false) :
    (flipStep pos s e t o).2 = pos.2 := by
  unfold flipStep
  split_ifs <;> simp_all

lemma shiftStep_vertical_some {pos : ℚ × ℚ} {s e t : Rect} {o : FloatingOptions}
    {x y : ℚ} (hv : o.placement.is_vertical = true)
    (h : shiftStep pos s e t o = some (x, y)) :
    y = pos.2 ∧
      (o.can_shift = true →
        t.minX - e.width + o.padding ≤ x ∧ x ≤ t.maxX - o.padding) := by
  unfold shiftStep at h
  by_cases hcs : o.can_shift = true
  · rw [if_pos hcs, if_pos hv] at h
    rcases Option.map_eq_some'.mp h with ⟨xc, hfc, hxy⟩
    rcases Prod.mk.injEq .. ▸ hxy with ⟨hx, hy⟩
    exact ⟨hy.symm, fun _ => hx ▸ fclamp_eq_some_bounds hfc⟩
  · rw [if_neg hcs] at h
    rcases Option.some.injEq .. ▸ h with rfl
    exact ⟨rfl, fun hc => absurd hc hcs⟩

lemma shiftStep_horizontal_some {pos : ℚ × ℚ} {s e t : Rect} {o : FloatingOptions}
    {x y : ℚ} (hv : o.placement.is_vertical = false)
    (h : shiftStep pos s e t o = some (x, y)) :
    x = pos.1 ∧
      (o.can_shift = true →
        t.minY - e.height + o.padding ≤ y ∧ y ≤ t.maxY - o.padding) := by
  unfold shiftStep at h
  by_cases hcs : o.can_shift = true
  · rw [if_pos hcs, if_neg (by simp [hv])] at h
    rcases Option.map_eq_some'.mp h with ⟨yc, hfc, hxy⟩
    rcases Prod.mk.injEq .. ▸ hxy with ⟨hx, hy⟩
    exact ⟨hx.symm, fun _ => hy ▸ fclamp_eq_some_bounds hfc⟩
  · rw [if_neg hcs] at h
    rcases Option.some.injEq .. ▸ h with rfl
    exact ⟨rfl, fun hc => absurd hc hcs⟩

lemma shiftStep_exists_some {pos : ℚ × ℚ} {s e t : Rect} {o : FloatingOptions}
    (h : o.can_shift = true →
      if o.placement.is_vertical then
        t.minX - e.width + o.padding ≤ t.maxX - o.padding
      else
        t.minY - e.height + o.padding ≤ t.maxY - o.padding) :
    ∃ p, shiftStep pos s e t o = some p := by
  unfold shiftStep
  by_cases hcs : o.can_shift = true
  · rw [if_pos hcs]
    have h2 := h hcs
    by_cases hv : o.placement.is_vertical = true
    · rw [if_pos hv]
      rw [if_pos hv] at h2
      obtain ⟨r, hr⟩ := fclamp_isSome
        (x := viewportClamp pos.1 s.minX s.maxX e.width) h2
      exact ⟨(r, pos.2), by simp [hr]⟩
    · rw [if_neg hv]
      rw [if_neg hv] at h2
      obtain ⟨r, hr⟩ := fclamp_isSome
        (x := viewportClamp pos.2 s.minY s.maxY e.height) h2
      exact ⟨(pos.1, r), by simp [hr]⟩
  · rw [if_neg hcs]
    exact ⟨pos, rfl⟩

lemma is_top_imp_is_vertical {p : Placement} (h : p.is_top = true) :
    p.is_vertical = true := by
  cases p <;> simp_all [Placement.is_top, Placement.is_vertical]

end Floating
end DioxusFloating

namespace DioxusFloating

open Floating

/-- C1 counterexample: the engine is not total. With Shift enabled and padding
1000 the trigger-span clamp interval is inverted (1350 > -510), so the
underlying f64 clamp call panics; in this model calculate_placement is none. -/
theorem clamp_panic_counterexample :
    Floating.calculate_placement ⟨0, 0, 500, 500⟩ ⟨0, 0, 100, 50⟩
      ⟨450, 20, 40, 20⟩
      ⟨[Middleware.Shift], 1, 1000, Placement.BottomStart⟩ = none := by
  norm_num [Floating.calculate_placement, Floating.apply_middleware,
    Floating.shiftStep, Floating.flipStep, Floating.compute_base_coords,
    Floating.viewportClamp, Floating.fclamp, FloatingOptions.can_flip,
    FloatingOptions.can_shift, Placement.is_vertical, Placement.is_top,
    Placement.is_left, Placement.get_modifier, Rect.maxX, Rect.maxY]

/-- C1 amended: calculate_placement returns a coordinate pair whenever Shift is
disabled or the trigger-span clamp interval on the transverse axis is in order,
that is trigger.min - element.size + padding <= trigger.max - padding on that
axis; only an inverted interval (2 * padding exceeding trigger size plus
element size) makes the clamp step fail. -/
theorem calculate_placement_total_of_ordered_span (s e t : Rect)
    (o : FloatingOptions)
    (h : o.can_shift = true →
      if o.placement.is_vertical then
        t.minX - e.width + o.padding ≤ t.maxX - o.padding
      else
        t.minY - e.height + o.padding ≤ t.maxY - o.padding) :
    ∃ p, Floating.calculate_placement s e t o = some p := by
  unfold Floating.calculate_placement Floating.apply_middleware
  exact Floating.shiftStep_exists_some h

/-- C1 witness: the amended totality theorem applied at the default options
and the rectangles of the end-to-end scenario. -/
theorem calculate_placement_total_witness :
    ∃ p, Floating.calculate_placement ⟨0, 0, 500, 500⟩ ⟨0, 0, 100, 50⟩
      ⟨450, 20, 40, 20⟩
      ⟨[Middleware.Flip, Middleware.Shift], 1, 0, Placement.BottomStart⟩
      = some p :=
  calculate_placement_total_of_ordered_span _ _ _ _ (by
    intro _
    norm_num [Placement.is_vertical, Rect.maxX])

/-- C2: whenever Shift is among the middleware and calculate_placement returns
a pair, the transverse coordinate (x for vertical placements, y for horizontal
ones) lies in the trigger-span interval
[trigger.min - element.size + padding, trigger.max - padding]; the trigger
clamp runs after the viewport clamp and is authoritative. -/
theorem shift_keeps_transverse_within_trigger_span (s e t : Rect)
    (o : FloatingOptions) (x y : ℚ)
    (hmem : Middleware.Shift ∈ o.middleware)
    (h : Floating.calculate_placement s e t o = some (x, y)) :
    (o.placement.is_vertical = true →
      t.minX - e.width + o.padding ≤ x ∧ x ≤ t.maxX - o.padding) ∧
    (o.placement.is_vertical = false →
      t.minY - e.height + o.padding ≤ y ∧ y ≤ t.maxY - o.padding) := by
  have hcs : o.can_shift = true := by
    simp [FloatingOptions.can_shift, hmem]
  unfold Floating.calculate_placement Floating.apply_middleware at h
  exact ⟨fun hv => (Floating.shiftStep_vertical_some hv h).2 hcs,
    fun hv => (Floating.shiftStep_horizontal_some hv h).2 hcs⟩

/-- C2 witness: in the end-to-end scenario the returned x is 400, inside the
trigger-span interval [450 - 100 + 0, 450 + 40 - 0] = [350, 490]. -/
theorem shift_transverse_witness :
    (450 : ℚ) - 100 + 0 ≤ 400 ∧ (400 : ℚ) ≤ 450 + 40 - 0 :=
  (shift_keeps_transverse_within_trigger_span ⟨0, 0, 500, 500⟩
    ⟨0, 0, 100, 50⟩ ⟨450, 20, 40, 20⟩
    ⟨[Middleware.Flip, Middleware.Shift], 1, 0, Placement.BottomStart⟩ 400 41
    (by decide)
    (by norm_num [Floating.calculate_placement, Floating.apply_middleware,
      Floating.shiftStep, Floating.flipStep, Floating.compute_base_coords,
      Floating.viewportClamp, Floating.fclamp, FloatingOptions.can_flip,
      FloatingOptions.can_shift, Placement.is_vertical, Placement.is_top,
      Placement.is_left, Placement.get_modifier, Rect.maxX, Rect.maxY])).1 rfl

end DioxusFloating

namespace DioxusFloating

open Floating

/-- computeBasePosition is the base-position algorithm exactly as the spec
words it, case by case over the 12 placements: vertical sides put y at
trigger.minY - element.height - offset (Top) or trigger.maxY + offset
(Bottom) and choose x by alignment; horizontal sides are symmetric. -/
def computeBasePosition (element trigger : Rect) (options : FloatingOptions) :
    ℚ × ℚ :=
  match options.placement with
  | .TopStart =>
      (trigger.minX, trigger.minY - element.height - options.offset)
  | .TopCenter =>
      (trigger.minX + trigger.width / 2 - element.width / 2,
        trigger.minY - element.height - options.offset)
  | .TopEnd =>
      (trigger.maxX - element.width,
        trigger.minY - element.height - options.offset)
  | .BottomStart =>
      (trigger.minX, trigger.maxY + options.offset)
  | .BottomCenter =>
      (trigger.minX + trigger.width / 2 - element.width / 2,
        trigger.maxY + options.offset)
  | .BottomEnd =>
      (trigger.maxX - element.width, trigger.maxY + options.offset)
  | .LeftStart =>
      (trigger.minX - element.width - options.offset, trigger.minY)
  | .LeftCenter =>
      (trigger.minX - element.width - options.offset,
        trigger.minY + trigger.height / 2 - element.height / 2)
  | .LeftEnd =>
      (trigger.minX - element.width - options.offset,
        trigger.maxY - element.height)
  | .RightStart =>
      (trigger.maxX + options.offset, trigger.minY)
  | .RightCenter =>
      (trigger.maxX + options.offset,
        trigger.minY + trigger.height / 2 - element.height / 2)
  | .RightEnd =>
      (trigger.maxX + options.offset, trigger.maxY - element.height)

/-- C3: compute_base_coords agrees with the spec formulas for all 12
placements, every rectangle pair and every offset. -/
theorem compute_base_coords_matches_spec (e t : Rect) (o : FloatingOptions) :
    Floating.compute_base_coords e t o = computeBasePosition e t o := by
  rcases o with ⟨m, off, pad, pl⟩
  cases pl <;> rfl

/-- C4: Flip is single-shot. With Flip enabled, a Top placement and a base y
strictly above the scrollable top, the returned y is exactly
trigger.maxY + offset with no re-check of the flipped position, so it is at
least trigger.maxY whenever the offset is non-negative. -/
theorem flip_top_single_shot (s e t : Rect) (o : FloatingOptions) (x y : ℚ)
    (hflip : o.can_flip = true) (htop : o.placement.is_top = true)
    (hover : (Floating.compute_base_coords e t o).2 < s.minY)
    (hres : Floating.calculate_placement s e t o = some (x, y)) :
    y = t.maxY + o.offset ∧ (0 ≤ o.offset → t.maxY ≤ y) := by
  have hv := Floating.is_top_imp_is_vertical htop
  have hfs : Floating.flipStep (Floating.compute_base_coords e t o) s e t o
      = ((Floating.compute_base_coords e t o).1, t.maxY + o.offset) := by
    unfold Floating.flipStep
    rw [if_pos hflip, if_pos hv, if_pos ⟨htop, hover⟩]
  unfold Floating.calculate_placement Floating.apply_middleware at hres
  rw [hfs] at hres
  have h2 : y = t.maxY + o.offset :=
    (Floating.shiftStep_vertical_some hv hres).1
  exact ⟨h2, fun hoff => by rw [h2]; linarith⟩

/-- C4 witness: TopStart with the trigger at the top of the scrollable flips
below; the scenario of the spec (trigger maxY 40, offset 2) returns y = 42. -/
theorem flip_top_witness :
    (42 : ℚ) = 20 + 20 + 2 ∧ ((0 : ℚ) ≤ 2 → 20 + 20 ≤ (42 : ℚ)) :=
  flip_top_single_shot ⟨0, 0, 500, 500⟩ ⟨0, 0, 100, 50⟩ ⟨450, 20, 40, 20⟩
    ⟨[Middleware.Flip], 2, 0, Placement.TopStart⟩ 450 42
    (by decide) (by decide)
    (by norm_num [Floating.compute_base_coords, Placement.is_vertical,
      Placement.is_top, Placement.get_modifier, Rect.maxX, Rect.maxY])
    (by norm_num [Floating.calculate_placement, Floating.apply_middleware,
      Floating.shiftStep, Floating.flipStep, Floating.compute_base_coords,
      Floating.viewportClamp, Floating.fclamp, FloatingOptions.can_flip,
      FloatingOptions.can_shift, Placement.is_vertical, Placement.is_top,
      Placement.is_left, Placement.get_modifier, Rect.maxX, Rect.maxY] <;>
      decide)

/-- C5: with Flip absent, whenever calculate_placement returns a pair the
primary-axis coordinate equals the base coordinate (y for vertical
placements, x for horizontal ones); Shift never touches the primary axis. -/
theorem no_flip_primary_axis_preserved (s e t : Rect) (o : FloatingOptions)
    (x y : ℚ) (hflip : o.can_flip = false)
    (hres : Floating.calculate_placement s e t o = some (x, y)) :
    (o.placement.is_vertical = true →
      y = (Floating.compute_base_coords e t o).2) ∧
    (o.placement.is_vertical = false →
      x = (Floating.compute_base_coords e t o).1) := by
  have hfs : Floating.flipStep (Floating.compute_base_coords e t o) s e t o
      = Floating.compute_base_coords e t o := by
    unfold Floating.flipStep
    rw [if_neg (by simp [hflip])]
  unfold Floating.calculate_placement Floating.apply_middleware at hres
  rw [hfs] at hres
  exact ⟨fun hv => (Floating.shiftStep_vertical_some hv hres).1,
    fun hv => (Floating.shiftStep_horizontal_some hv hres).1⟩

/-- C5 witness: with no middleware at all, BottomStart on the end-to-end
rectangles returns the base position unchanged, in particular y = 41 even
though the element overflows the right edge. -/
theorem no_flip_witness :
    (Placement.is_vertical Placement.BottomStart = true →
      (41 : ℚ) = (Floating.compute_base_coords ⟨0, 0, 100, 50⟩
        ⟨450, 20, 40, 20⟩ ⟨[], 1, 0, Placement.BottomStart⟩).2) ∧
    (Placement.is_vertical Placement.BottomStart = false →
      (450 : ℚ) = (Floating.compute_base_coords ⟨0, 0, 100, 50⟩
        ⟨450, 20, 40, 20⟩ ⟨[], 1, 0, Placement.BottomStart⟩).1) :=
  no_flip_primary_axis_preserved ⟨0, 0, 500, 500⟩ ⟨0, 0, 100, 50⟩
    ⟨450, 20, 40, 20⟩ ⟨[], 1, 0, Placement.BottomStart⟩ 450 41
    (by decide)
    (by norm_num [Floating.calculate_placement, Floating.apply_middleware,
      Floating.shiftStep, Floating.flipStep, Floating.compute_base_coords,
      Floating.viewportClamp, Floating.fclamp, FloatingOptions.can_flip,
      FloatingOptions.can_shift, Placement.is_vertical, Placement.is_top,
      Placement.is_left, Placement.get_modifier, Rect.maxX, Rect.maxY])

end DioxusFloating

namespace DioxusFloating

open Floating

/-- C6: the end-to-end scenario of the spec. Scrollable 500x500 at the origin,
trigger at (450, 20) sized 40x20, element 100x50, BottomStart, offset 1,
padding 0, Flip and Shift enabled: the result is exactly (400, 41). -/
theorem end_to_end_bottom_start_scenario :
    Floating.calculate_placement ⟨0, 0, 500, 500⟩ ⟨0, 0, 100, 50⟩
      ⟨450, 20, 40, 20⟩
      ⟨[Middleware.Flip, Middleware.Shift], 1, 0, Placement.BottomStart⟩
      = some (400, 41) := by
  norm_num [Floating.calculate_placement, Floating.apply_middleware,
    Floating.shiftStep, Floating.flipStep, Floating.compute_base_coords,
    Floating.viewportClamp, Floating.fclamp, FloatingOptions.can_flip,
    FloatingOptions.can_shift, Placement.is_vertical, Placement.is_top,
    Placement.is_left, Placement.get_modifier, Rect.maxX, Rect.maxY]

/-- C7: measurement-failure policy of placement_on_point and
placement_on_trigger. A failed element measurement returns the trigger
top-left (the point itself, or the measured-or-default trigger corner) with
no middleware applied; a failed scrollable measurement degrades, in both
functions, to a rectangle at the origin with the scroll-state bounds; a
failed trigger measurement degrades to a 1x1 rectangle at the origin;
neither of the last two aborts the computation. -/
theorem measurement_failure_fallbacks :
    ∀ (ss : ScrollState) (sm tm em : Option Rect) (pt : ClientPoint)
      (o : FloatingOptions),
      Floating.placement_on_point ss sm none pt o = some (pt.x, pt.y) ∧
      Floating.placement_on_trigger ss sm tm none o =
        some ((tm.getD ⟨0, 0, 1, 1⟩).minX, (tm.getD ⟨0, 0, 1, 1⟩).minY) ∧
      Floating.placement_on_point ss none em pt o =
        Floating.placement_on_point ss
          (some ⟨0, 0, ss.bounds.width, ss.bounds.height⟩) em pt o ∧
      Floating.placement_on_trigger ss none tm em o =
        Floating.placement_on_trigger ss
          (some ⟨0, 0, ss.bounds.width, ss.bounds.height⟩) tm em o ∧
      Floating.placement_on_trigger ss sm none em o =
        Floating.placement_on_trigger ss sm (some ⟨0, 0, 1, 1⟩) em o :=
  fun _ _ _ _ _ _ => ⟨rfl, rfl, rfl, rfl, rfl⟩

/-- C8: calculate_placement is deterministic and stateless; it is a pure
function of its four arguments, so equal inputs give equal outputs. -/
theorem calculate_placement_deterministic (s e t : Rect) (o : FloatingOptions)
    (s2 e2 t2 : Rect) (o2 : FloatingOptions)
    (hs : s = s2) (he : e = e2) (ht : t = t2) (ho : o = o2) :
    Floating.calculate_placement s e t o =
      Floating.calculate_placement s2 e2 t2 o2 := by
  subst hs; subst he; subst ht; subst ho; rfl

/-- C8 witness: the determinism theorem applied at the end-to-end scenario. -/
theorem calculate_placement_deterministic_witness :
    Floating.calculate_placement ⟨0, 0, 500, 500⟩ ⟨0, 0, 100, 50⟩
        ⟨450, 20, 40, 20⟩
        ⟨[Middleware.Flip, Middleware.Shift], 1, 0, Placement.BottomStart⟩
      = Floating.calculate_placement ⟨0, 0, 500, 500⟩ ⟨0, 0, 100, 50⟩
        ⟨450, 20, 40, 20⟩
        ⟨[Middleware.Flip, Middleware.Shift], 1, 0, Placement.BottomStart⟩ :=
  calculate_placement_deterministic _ _ _ _ _ _ _ _ rfl rfl rfl rfl

/-- C9: the result depends on the middleware list only through membership of
Flip and of Shift: two lists with the same membership (any order, any
duplication), all other fields equal, give identical coordinates. -/
theorem middleware_membership_determines_result (s e t : Rect)
    (m1 m2 : List Middleware) (off pad : ℚ) (pl : Placement)
    (hf : Middleware.Flip ∈ m1 ↔ Middleware.Flip ∈ m2)
    (hsh : Middleware.Shift ∈ m1 ↔ Middleware.Shift ∈ m2) :
    Floating.calculate_placement s e t ⟨m1, off, pad, pl⟩ =
      Floating.calculate_placement s e t ⟨m2, off, pad, pl⟩ := by
  have hf2 : FloatingOptions.can_flip ⟨m1, off, pad, pl⟩ =
      FloatingOptions.can_flip ⟨m2, off, pad, pl⟩ := by
    simp only [FloatingOptions.can_flip]
    exact decide_eq_decide.mpr hf
  have hs2 : FloatingOptions.can_shift ⟨m1, off, pad, pl⟩ =
      FloatingOptions.can_shift ⟨m2, off, pad, pl⟩ := by
    simp only [FloatingOptions.can_shift]
    exact decide_eq_decide.mpr hsh
  unfold Floating.calculate_placement Floating.apply_middleware
    Floating.flipStep Floating.shiftStep
  rw [hf2, hs2]
  rfl

/-- C9 witness: reordering and duplicating the default middleware list leaves
the end-to-end scenario result unchanged. -/
theorem middleware_membership_witness :
    Floating.calculate_placement ⟨0, 0, 500, 500⟩ ⟨0, 0, 100, 50⟩
        ⟨450, 20, 40, 20⟩
        ⟨[Middleware.Flip, Middleware.Shift], 1, 0, Placement.BottomStart⟩
      = Floating.calculate_placement ⟨0, 0, 500, 500⟩ ⟨0, 0, 100, 50⟩
        ⟨450, 20, 40, 20⟩
        ⟨[Middleware.Shift, Middleware.Flip, Middleware.Flip], 1, 0,
          Placement.BottomStart⟩ :=
  middleware_membership_determines_result _ _ _ _ _ _ _ _
    (by decide) (by decide)

end DioxusFloating

namespace DioxusFloating

open Floating

/-- C10 counterexample: an element flush with the left scrollable edge is not
always left alone by the viewport clamp. With scrollable 500 wide, an element
600 wide and a 700-wide trigger, BottomStart gives base x = 0 = scrollable
minX, yet Shift moves x to -100, because the right-overflow test of the
viewport clamp still fires. -/
theorem flush_left_viewport_clamp_counterexample :
    Floating.compute_base_coords ⟨0, 0, 600, 50⟩ ⟨0, 20, 700, 20⟩
        ⟨[Middleware.Shift], 1, 0, Placement.BottomStart⟩ = (0, 41) ∧
      Floating.calculate_placement ⟨0, 0, 500, 500⟩ ⟨0, 0, 600, 50⟩
        ⟨0, 20, 700, 20⟩ ⟨[Middleware.Shift], 1, 0, Placement.BottomStart⟩
        = some (-100, 41) := by
  constructor <;>
    norm_num [Floating.calculate_placement, Floating.apply_middleware,
      Floating.shiftStep, Floating.flipStep, Floating.compute_base_coords,
      Floating.viewportClamp, Floating.fclamp, FloatingOptions.can_flip,
      FloatingOptions.can_shift, Placement.is_vertical, Placement.is_top,
      Placement.is_left, Placement.get_modifier, Rect.maxX, Rect.maxY]

/-- C10 amended: overflow tests are strict, so flush positions are never
corrected, with one proviso. Flip leaves the position unchanged when the base
coordinate exactly meets the scrollable edge, on both axes and both sides;
the viewport clamp of Shift leaves a coordinate flush with the far edge
(coord + size = hi) unchanged unconditionally, and one flush with the near
edge (coord = lo) unchanged provided the element also fits, lo + size <= hi;
when the element is larger than the scrollable the far-overflow test fires
even at the near edge and moves the coordinate. -/
theorem strict_overflow_flush_no_correction (s e t : Rect)
    (o : FloatingOptions) (x y coord lo hi size : ℚ) :
    (o.can_flip = true → o.placement.is_vertical = true →
      o.placement.is_top = true → y = s.minY →
      Floating.flipStep (x, y) s e t o = (x, y)) ∧
    (o.can_flip = true → o.placement.is_vertical = true →
      o.placement.is_top = false → y + e.height = s.maxY →
      Floating.flipStep (x, y) s e t o = (x, y)) ∧
    (o.can_flip = true → o.placement.is_vertical = false →
      o.placement.is_left = true → x = s.minX →
      Floating.flipStep (x, y) s e t o = (x, y)) ∧
    (o.can_flip = true → o.placement.is_vertical = false →
      o.placement.is_left = false → x + e.width = s.maxX →
      Floating.flipStep (x, y) s e t o = (x, y)) ∧
    (coord = lo → lo + size ≤ hi →
      Floating.viewportClamp coord lo hi size = coord) ∧
    (coord + size = hi → Floating.viewportClamp coord lo hi size = coord) := by
  refine ⟨?_, ?_, ?_, ?_, ?_, ?_⟩
  · intro hcf hv htop hy
    unfold Floating.flipStep
    rw [if_pos hcf, if_pos hv, if_neg, if_neg]
    · exact fun h => h.1 htop
    · exact fun h => absurd h.2 (by rw [hy]; exact lt_irrefl s.minY)
  · intro hcf hv htop hy
    unfold Floating.flipStep
    rw [if_pos hcf, if_pos hv, if_neg, if_neg]
    · exact fun h => absurd h.2 (by rw [hy]; exact lt_irrefl s.maxY)
    · exact fun h => by rw [htop] at h; exact Bool.false_ne_true h.1
  · intro hcf hv hleft hx
    unfold Floating.flipStep
    rw [if_pos hcf, if_neg (show ¬o.placement.is_vertical = true by
      simp [hv]), if_neg, if_neg]
    · exact fun h => h.1 hleft
    · exact fun h => absurd h.2 (by rw [hx]; exact lt_irrefl s.minX)
  · intro hcf hv hleft hx
    unfold Floating.flipStep
    rw [if_pos hcf, if_neg (show ¬o.placement.is_vertical = true by
      simp [hv]), if_neg, if_neg]
    · exact fun h => absurd h.2 (by rw [hx]; exact lt_irrefl s.maxX)
    · exact fun h => by rw [hleft] at h; exact Bool.false_ne_true h.1
  · intro hc hfit
    unfold Floating.viewportClamp
    dsimp only
    split_ifs with h1 h2 h3 <;> linarith
  · intro hc
    unfold Floating.viewportClamp
    dsimp only
    split_ifs with h1 h2 h3 <;> linarith

/-- C10 witness: a TopStart base position flush with the scrollable top is not
flipped, and a coordinate 5 with the element fitting (5 + 100 <= 500) is left
alone by the viewport clamp (here with lo = 5, hi = 500). -/
theorem strict_overflow_flush_witness :
    Floating.flipStep (450, 0) ⟨0, 0, 500, 500⟩ ⟨0, 0, 100, 50⟩
        ⟨450, 20, 40, 20⟩ ⟨[Middleware.Flip], 1, 0, Placement.TopStart⟩
        = (450, 0) ∧
      Floating.viewportClamp 5 5 500 100 = 5 :=
  ⟨(strict_overflow_flush_no_correction ⟨0, 0, 500, 500⟩ ⟨0, 0, 100, 50⟩
      ⟨450, 20, 40, 20⟩ ⟨[Middleware.Flip], 1, 0, Placement.TopStart⟩
      450 0 5 5 500 100).1 (by decide) (by decide) (by decide) rfl,
    (strict_overflow_flush_no_correction ⟨0, 0, 500, 500⟩ ⟨0, 0, 100, 50⟩
      ⟨450, 20, 40, 20⟩ ⟨[Middleware.Flip], 1, 0, Placement.TopStart⟩
      450 0 5 5 500 100).2.2.2.2.1 rfl (by norm_num)⟩

end DioxusFloating
